import Mathlib

/-!
Shallow embedding of the OHTTP gateway server, modelled from
`src/ohttp-server/src/main.rs` (key provider, retry loop, CBOR key parsing,
the `/score` handler dispatch) and `src/cgpuvm-attest/src/lib.rs` (the
attestation adapter).  Pure control flow is translated directly; the external
cryptographic libraries (hpke, ohttp, bhttp) and the network are abstracted
as explicit inputs, since no verified claim inspects their internals.
-/

namespace OhttpGateway

/-- HPKE KEM identifier used by the server (`ohttp::hpke::Kem`). -/
inductive Kem
  | P384Sha384
deriving DecidableEq, Repr

/-- HPKE KDF identifiers used by the server (`ohttp::hpke::Kdf`). -/
inductive Kdf
  | HkdfSha256
  | HkdfSha384
deriving DecidableEq, Repr

/-- HPKE AEAD identifiers used by the server (`ohttp::hpke::Aead`). -/
inductive Aead
  | Aes128Gcm
  | Aes256Gcm
  | ChaCha20Poly1305
deriving DecidableEq, Repr

/-- Model of `ohttp::SymmetricSuite`: a (KDF, AEAD) pair. -/
structure SymmetricSuite where
  kdf : Kdf
  aead : Aead
deriving DecidableEq, Repr

/-- Model of `ohttp::KeyConfig` as constructed by this server.  `kid` is a
`u8` in the source; `skBytes` is `some d` for a key imported from the KMS
scalar `d`, and `none` for a locally generated key (`KeyConfig::new` draws a
fresh keypair inside the external library).  The public key is recomputed
from the scalar by the external hpke library and carries no information the
claims inspect, so it is not modelled. -/
structure KeyConfig where
  kid : Nat
  kem : Kem
  skBytes : Option (List Nat)
  suites : List SymmetricSuite
deriving DecidableEq, Repr

/-- Suite list passed to `KeyConfig::import_p384` in `import_config`
(main.rs lines 245-249). -/
def defaultSuites : List SymmetricSuite :=
  [⟨Kdf.HkdfSha384, Aead.Aes256Gcm⟩,
   ⟨Kdf.HkdfSha256, Aead.Aes128Gcm⟩,
   ⟨Kdf.HkdfSha256, Aead.ChaCha20Poly1305⟩]

/-- Suite list of the locally generated key in `main` under `--local-key`
(main.rs lines 482-489). -/
def localKeySuites : List SymmetricSuite :=
  [⟨Kdf.HkdfSha256, Aead.Aes128Gcm⟩,
   ⟨Kdf.HkdfSha256, Aead.ChaCha20Poly1305⟩]

/-- Model of `KeyConfig::import_p384(returned_kid, Kem::P384Sha384, sk, pk,
suites)` (main.rs line 240): records the key id, the scalar bytes and the
suite list.  The library call is modelled as total; its internal failure
modes belong to the external crypto crate. -/
def KeyConfig.import_p384 (kid : Nat) (sk : List Nat)
    (suites : List SymmetricSuite) : KeyConfig :=
  ⟨kid, Kem.P384Sha384, some sk, suites⟩

/-- The `KeyConfig::new(0, Kem::P384Sha384, ...)` built at startup in
local-key mode (main.rs lines 482-489): kid 0, locally generated scalar,
and only the two suites listed there. -/
def localKeyConfig : KeyConfig :=
  ⟨0, Kem.P384Sha384, none, localKeySuites⟩

/-- Model of `serde_cbor::Value`, restricted to the shapes `parse_cbor_key`
inspects.  `serde_cbor`'s `Integer` is an `i128`, modelled as `Int`. -/
inductive CborValue
  | int : Int → CborValue
  | bytes : List Nat → CborValue
  | text : String → CborValue
  | map : List (CborValue × CborValue) → CborValue
deriving Repr

/-- Error outcomes of the key-provider path, one constructor per distinct
`Err(...)`/failure site of main.rs, named after the source strings:
`hexError` = `hex::decode` failure, `cborError` = `serde_cbor::from_slice`
failure, `kidMismatchCbor` = "Server returned a different KID from the one
requested", `badKeyIdentifier` = "Bad key identifier in SKR response",
`invalidSecretExponent`, `badKeyType`, `unexpectedField`,
`incorrectCborEncoding`, `kidMismatchJson` = "KMS returned a different key
ID from the one requested", `maxRetriesReached` = "Max retries reached,
giving up.  Cannot reach key management service" (the specification's
KmsUnavailable), `privateKeyMissing`, `jsonError` = `serde_json::from_str`
failure, `attestationFailure`, `sendFailure` = transport failure of the
reqwest call.  `kmsRejected` appears only in the specification's error
catalogue; no code path of main.rs constructs it, and it is declared here
solely so that the specification's claim about it can be stated. -/
inductive SkrError
  | hexError
  | cborError
  | kidMismatchCbor
  | badKeyIdentifier
  | invalidSecretExponent
  | badKeyType
  | unexpectedField
  | incorrectCborEncoding
  | kidMismatchJson
  | maxRetriesReached
  | privateKeyMissing
  | jsonError
  | attestationFailure
  | sendFailure
  | kmsRejected
deriving DecidableEq, Repr

/-- Outcome of running a fallible Rust computation: `Ok`, `Err`, or a panic
(such as `.unwrap()` applied to an `Err`). -/
inductive RunResult (α : Type)
  | ok : α → RunResult α
  | err : SkrError → RunResult α
  | panic : RunResult α
deriving DecidableEq, Repr

/-- The `key` string of the KMS JSON body, represented by the outcome of
hex-decoding it and CBOR-decoding the result.  `empty` models
`String::new()` from the non-200/202 arm of the loop: `hex::decode` of an
empty string yields an empty byte vector, and `serde_cbor::from_slice`
fails on empty input, so the parse fails at the CBOR stage.  `badHex` and
`badCbor` model strings whose hex or CBOR decoding fails; `value v` models
a string decoding to the CBOR value `v`. -/
inductive KeyString
  | empty
  | badHex
  | badCbor
  | value : CborValue → KeyString
deriving Repr

/-- One iteration of the for-loop in `parse_cbor_key` (main.rs lines
105-143) over the state `(d, returned_kid)`.  Integer map labels 4, -4, -1,
-2, -3 are handled; any other integer label errors; non-integer labels are
silently skipped.  For label 4 the source runs `u8::try_from(k).unwrap()`
BEFORE the mismatch check, so an integer outside 0-255 panics. -/
def processEntry (kid : Int) (st : Option (List Nat) × Nat)
    (entry : CborValue × CborValue) : RunResult (Option (List Nat) × Nat) :=
  match entry.1 with
  | CborValue.int k =>
    if k = 4 then
      match entry.2 with
      | CborValue.int kv =>
        if 0 ≤ kv ∧ kv ≤ 255 then
          let rk : Nat := kv.toNat
          if kid ≥ 0 ∧ (rk : Int) ≠ kid then
            RunResult.err SkrError.kidMismatchCbor
          else
            RunResult.ok (st.1, rk)
        else
          RunResult.panic
      | _ => RunResult.err SkrError.badKeyIdentifier
    else if k = -4 then
      match entry.2 with
      | CborValue.bytes v => RunResult.ok (some v, st.2)
      | _ => RunResult.err SkrError.invalidSecretExponent
    else if k = -1 then
      match entry.2 with
      | CborValue.int 2 => RunResult.ok st
      | _ => RunResult.err SkrError.badKeyType
    else if k = -2 ∨ k = -3 then
      RunResult.ok st
    else
      RunResult.err SkrError.unexpectedField
  | _ => RunResult.ok st

/-- The for-loop of `parse_cbor_key`, folded over the map entries with
early exit on error or panic. -/
def parseEntries (kid : Int) :
    Option (List Nat) × Nat → List (CborValue × CborValue) →
    RunResult (Option (List Nat) × Nat)
  | st, [] => RunResult.ok st
  | st, e :: rest =>
    match processEntry kid st e with
    | RunResult.ok st' => parseEntries kid st' rest
    | RunResult.err er => RunResult.err er
    | RunResult.panic => RunResult.panic

/-- Model of `parse_cbor_key(key, kid)` (main.rs lines 99-148).  Returns
the optional private scalar and the returned kid (initialised to 0 and left
at 0 when the map has no label-4 entry).  A non-map top-level CBOR value
yields the "Incorrect CBOR encoding in returned private key" error. -/
def parse_cbor_key (key : KeyString) (kid : Int) :
    RunResult (Option (List Nat) × Nat) :=
  match key with
  | KeyString.empty => RunResult.err SkrError.cborError
  | KeyString.badHex => RunResult.err SkrError.hexError
  | KeyString.badCbor => RunResult.err SkrError.cborError
  | KeyString.value (CborValue.map entries) => parseEntries kid (none, 0) entries
  | KeyString.value _ => RunResult.err SkrError.incorrectCborEncoding

/-- The JSON body of a 200 KMS response (`struct ExportedKey`, main.rs
lines 38-43).  `kid` is a `u8` in the source. -/
structure ExportedKey where
  kid : Nat
  key : KeyString
  receipt : String
deriving Repr

/-- One KMS HTTP response: its status code and, relevant when the status is
200, the JSON decoding outcome of its body (`none` models a
`serde_json::from_str` failure). -/
structure KmsResponse where
  status : Nat
  body : Option ExportedKey
deriving Repr

/-- Observable trace of the SKR retry loop: how many KMS requests were
sent, and the seconds slept between attempts. -/
structure LoopTrace where
  requests : Nat
  sleepsSeconds : List Nat
deriving DecidableEq, Repr

/-- Outcome of the SKR retry loop: the `key` string it broke out with, or a
propagated error. -/
inductive LoopOut
  | gotKey : KeyString → LoopOut
  | failed : SkrError → LoopOut
deriving Repr

/-- The SKR retry loop of `import_config` (main.rs lines 168-230), with
`max_retries = 3` and `retries` starting at 0.  On a 202, if
`retries < max_retries` the loop sleeps 1 second and retries, else it fails
("Max retries reached...").  On a 200 it JSON-decodes the body, checks the
envelope kid against the requested kid when `kid >= 0`, and breaks with the
`key` string.  On ANY OTHER status it logs, sets `key = String::new()` and
breaks WITHOUT error (main.rs lines 224-228).  The input list holds the
successive responses the KMS produces; exhausting it models a transport
failure of `send()`. -/
def runSkrLoop (kid : Int) (maxRetries : Nat) :
    Nat → List KmsResponse → LoopTrace × LoopOut
  | _, [] => (⟨1, []⟩, LoopOut.failed SkrError.sendFailure)
  | retries, r :: rest =>
    if r.status = 202 then
      if retries < maxRetries then
        let next := runSkrLoop kid maxRetries (retries + 1) rest
        (⟨next.1.requests + 1, 1 :: next.1.sleepsSeconds⟩, next.2)
      else
        (⟨1, []⟩, LoopOut.failed SkrError.maxRetriesReached)
    else if r.status = 200 then
      match r.body with
      | none => (⟨1, []⟩, LoopOut.failed SkrError.jsonError)
      | some skr =>
        if kid ≥ 0 ∧ (skr.kid : Int) ≠ kid then
          (⟨1, []⟩, LoopOut.failed SkrError.kidMismatchJson)
        else
          (⟨1, []⟩, LoopOut.gotKey skr.key)
    else
      (⟨1, []⟩, LoopOut.gotKey KeyString.empty)

/-- The moka cache time-to-live (main.rs lines 92-96):
`Duration::from_secs(24 * 60 * 60)`. -/
def cacheTimeToLiveSeconds : Nat := 24 * 60 * 60

/-- Cache content: association list from the `i32` cache key to the cached
`(KeyConfig, token)` pair. -/
abbrev CacheMap := List (Int × (KeyConfig × String))

/-- Model of `cache.get(&kid)` over the association-list cache content. -/
def cacheGet : CacheMap → Int → Option (KeyConfig × String)
  | [], _ => none
  | (k, v) :: rest, kid => if k = kid then some v else cacheGet rest kid

/-- Environment of one `import_config` run: the current cache content, the
attestation outcome (`some token` means `attest` succeeded and the returned
bytes were valid UTF-8; `none` means the attestation call failed), and the
successive KMS responses. -/
structure ImportEnv where
  cache : CacheMap
  attestToken : Option String
  responses : List KmsResponse

/-- Result of a successful `import_config`: the returned `(config, token)`
pair, plus the cache insertion it performed (`none` on a cache hit, which
returns without inserting). -/
structure ImportOutcome where
  config : KeyConfig
  token : String
  inserted : Option (Int × (KeyConfig × String))
deriving DecidableEq, Repr

/-- Model of `import_config(maa, kms, kid)` (main.rs lines 150-254).
Checks the cache; attests; runs the SKR loop; parses the CBOR key; requires
the private scalar to be present; builds the `KeyConfig` with
`defaultSuites`; and performs `cache.insert(kid, (config, token))`
(main.rs line 252) — note the cache key is the REQUESTED `kid` argument,
while the config carries `returned_kid` from the CBOR map. -/
def import_config (env : ImportEnv) (kid : Int) : RunResult ImportOutcome :=
  match cacheGet env.cache kid with
  | some (config, token) => RunResult.ok ⟨config, token, none⟩
  | none =>
    match env.attestToken with
    | none => RunResult.err SkrError.attestationFailure
    | some token =>
      match (runSkrLoop kid 3 0 env.responses).2 with
      | LoopOut.failed e => RunResult.err e
      | LoopOut.gotKey key =>
        match parse_cbor_key key kid with
        | RunResult.err e => RunResult.err e
        | RunResult.panic => RunResult.panic
        | RunResult.ok (d, returned_kid) =>
          match d with
          | none => RunResult.err SkrError.privateKeyMissing
          | some sk =>
            RunResult.ok ⟨KeyConfig.import_p384 returned_kid sk defaultSuites, token,
              some (kid, (KeyConfig.import_p384 returned_kid sk defaultSuites, token))⟩

/-- The hard-coded MAA endpoint of `cgpuvm-attest/src/lib.rs` line 2. -/
def MAA_ENDPOINT_URL : String := "https://sharedeus2.eus2.attest.azure.net/"

/-- Arguments the attestation adapter passes to the C FFI function
`get_attestation_token`. -/
structure AttestCall where
  appData : List Nat
  pcrSel : Nat
  endpointUrl : String
deriving DecidableEq, Repr

/-- Model of `attest(data, pcrs)` from `cgpuvm-attest/src/lib.rs` lines
10-24.  The function has exactly TWO parameters; the endpoint URL pointer
handed to the FFI call is always the module constant `MAA_ENDPOINT_URL`.
`ffi` models the external C function, returning its status code and the
token bytes; a zero status yields `Some(token)`, anything else `None`.
The returned pair records the FFI call made and the Rust-level result. -/
def attest (ffi : AttestCall → Int × List Nat) (data : List Nat)
    (pcrs : Nat) : AttestCall × Option (List Nat) :=
  let call : AttestCall := ⟨data, pcrs, MAA_ENDPOINT_URL⟩
  let r := ffi call
  (call, if r.1 = 0 then some r.2 else none)

/-- Key-id selection in `score` (main.rs lines 351-355): match on
`body.first().copied()`, mapping an empty body to -1 and a non-empty body
to the integer value of its first byte.  Total by construction — the source
uses `first()`, not an index expression. -/
def kidOfBody (body : List Nat) : Int :=
  match body.head? with
  | none => -1
  | some b => (b : Int)

/-- Outcome of `generate_reply` as observed by `score`: success, an
`ohttp::Error` (with the string of its Debug rendering), or any other boxed
error. -/
inductive GenReply
  | ok
  | ohttpError : String → GenReply
  | otherError : GenReply
deriving DecidableEq, Repr

/-- Body of the `/score` HTTP response, by shape: the fixed 500 body
("Failed to get or load the OHTTP coniguration..."), the 422 body
`format!("Error: ...")` carrying the Debug rendering of the ohttp error,
the fixed 400 body "Request error", or the encapsulated response stream. -/
inductive ScoreBody
  | configError
  | ohttpErrorText : String → ScoreBody
  | requestError
  | encapsulatedStream
deriving DecidableEq, Repr

/-- The `/score` HTTP response: status, optional Content-Type header, and
body shape.  The success branch never sets an explicit status, so the
builder default 200 applies. -/
structure ScoreResponse where
  status : Nat
  contentType : Option String
  body : ScoreBody
deriving DecidableEq, Repr

/-- Model of the `score` handler (main.rs lines 329-434).  In local-key
mode a non-zero kid short-circuits to no configuration; otherwise
`import_config` runs, and an `OhttpServer::new` failure (abstracted as
`ohttpNewOk = false`) also yields no configuration.  No configuration
produces status 500 with the fixed body.  With a configuration, the
`generate_reply` outcome (abstracted as `reply`) dispatches: success is the
default 200 status with Content-Type message/ohttp-chunked-res and the
encapsulated stream; an ohttp error downcast is 422 with the error's Debug
text; any other error is 400 with body "Request error". -/
def score (localKey : Bool) (env : ImportEnv) (ohttpNewOk : Bool)
    (reply : GenReply) (body : List Nat) : RunResult ScoreResponse :=
  let kid := kidOfBody body
  if localKey = true ∧ kid ≠ 0 then
    RunResult.ok ⟨500, none, ScoreBody.configError⟩
  else
    match import_config env kid with
    | RunResult.panic => RunResult.panic
    | RunResult.err _ => RunResult.ok ⟨500, none, ScoreBody.configError⟩
    | RunResult.ok _ =>
      if ohttpNewOk = true then
        match reply with
        | GenReply.ok =>
          RunResult.ok ⟨200, some "message/ohttp-chunked-res",
            ScoreBody.encapsulatedStream⟩
        | GenReply.ohttpError s =>
          RunResult.ok ⟨422, none, ScoreBody.ohttpErrorText ("Error: " ++ s)⟩
        | GenReply.otherError =>
          RunResult.ok ⟨400, none, ScoreBody.requestError⟩
      else
        RunResult.ok ⟨500, none, ScoreBody.configError⟩

/-! Concrete environments and key maps used by the theorems below. -/

/-- Environment with an empty cache, a successful attestation yielding
`token`, and a single KMS response. -/
def envSingle (token : String) (r : KmsResponse) : ImportEnv :=
  ⟨[], some token, [r]⟩

/-- A well-formed COSE-style key map: key id `rk` (label 4), key type P-384
(label -1 value 2), private scalar `d` (label -4). -/
def keyMapWithKid (rk : Int) (d : List Nat) : KeyString :=
  KeyString.value (CborValue.map
    [(CborValue.int 4, CborValue.int rk),
     (CborValue.int (-1), CborValue.int 2),
     (CborValue.int (-4), CborValue.bytes d)])

/-- A key map with NO label-4 entry: key type and private scalar only. -/
def keyMapNoKid (d : List Nat) : KeyString :=
  KeyString.value (CborValue.map
    [(CborValue.int (-1), CborValue.int 2),
     (CborValue.int (-4), CborValue.bytes d)])

/-- A 202 KMS response (body irrelevant). -/
def resp202 : KmsResponse := ⟨202, none⟩

/-- Environment whose only KMS response has status 404. -/
def env404 : ImportEnv := envSingle "tok" ⟨404, none⟩

/-- Environment for a latest-key request: the KMS answers 200 with
envelope kid 5 and a well-formed key map carrying kid 5. -/
def envKid5 : ImportEnv := envSingle "tok" ⟨200, some ⟨5, keyMapWithKid 5 [9], "rcpt"⟩⟩

/-- The outcome `import_config envKid5 (-1)` evaluates to: config with kid
5, but cached under the requested kid -1. -/
def outKid5 : ImportOutcome :=
  ⟨⟨5, Kem.P384Sha384, some [9], defaultSuites⟩, "tok",
    some (-1, (⟨5, Kem.P384Sha384, some [9], defaultSuites⟩, "tok"))⟩

/-- Environment where the KMS answers 200 for the latest key with a
well-formed kid-0 key map. -/
def envGood : ImportEnv := envSingle "t" ⟨200, some ⟨0, keyMapWithKid 0 [1], "r"⟩⟩

/-- Shape of every `import_config` result that actually performed a KMS
fetch (`inserted ≠ none`): the insertion is keyed by the REQUESTED kid and
holds the returned pair, and the constructed config carries the full
default suite list.  Shared helper for the cache and suite theorems. -/
theorem import_config_ok_shape (env : ImportEnv) (kid : Int)
    (out : ImportOutcome) (hok : import_config env kid = RunResult.ok out)
    (hins : out.inserted ≠ none) :
    out.inserted = some (kid, (out.config, out.token)) ∧
    out.config.suites = defaultSuites := by
  unfold import_config at hok
  repeat' split at hok
  any_goals contradiction
  · injection hok with h
    rw [← h] at hins
    exact absurd rfl hins
  · injection hok with h
    rw [← h]
    exact ⟨rfl, rfl⟩

/-- C2: the attestation adapter of cgpuvm-attest takes only the
application-data blob and the PCR selector; for every FFI behaviour, every
blob and every PCR selector, the endpoint URL handed to the platform
attestation call is the hard-coded module constant `MAA_ENDPOINT_URL` — a
caller-supplied endpoint (such as the --maa-url override that main.rs
passes as a third argument) cannot reach the attestation call, because the
function has no parameter for it. -/
theorem attest_endpoint_is_hardcoded (ffi : AttestCall → Int × List Nat)
    (data : List Nat) (pcrs : Nat) :
    (attest ffi data pcrs).1.endpointUrl = MAA_ENDPOINT_URL := rfl

/-- C5: the key id selected by the `/score` handler is -1 for an empty
body and the integer value of the first byte for a non-empty body; the
selection is a total function of the body (the source matches on
`body.first().copied()`, so no out-of-bounds indexing of body can occur). -/
theorem score_kid_selection_total :
    kidOfBody [] = -1 ∧
    ∀ (b : Nat) (bs : List Nat), kidOfBody (b :: bs) = (b : Int) :=
  ⟨rfl, fun _ _ => rfl⟩

/-- Witness for C5 at an empty body and at the body 7 :: [1, 2]. -/
theorem score_kid_selection_total_witness :
    kidOfBody [] = -1 ∧ kidOfBody (7 :: [1, 2]) = ((7 : Nat) : Int) :=
  ⟨score_kid_selection_total.1, score_kid_selection_total.2 7 [1, 2]⟩

/-- C6 (code evaluated at the failing input): on a CBOR map whose label-4
value is the integer 256 — outside the 0-255 key-id range —
`parse_cbor_key` PANICS (the source runs `u8::try_from(k).unwrap()` before
any range check) instead of returning a MalformedKey error; an in-range
value such as 7 is returned as the key id after the mismatch check against
the requested kid. -/
theorem parse_cbor_key_kid_out_of_range_panics :
    parse_cbor_key (KeyString.value (CborValue.map
      [(CborValue.int 4, CborValue.int 256),
       (CborValue.int (-1), CborValue.int 2),
       (CborValue.int (-4), CborValue.bytes [1])])) 3 = RunResult.panic ∧
    parse_cbor_key (keyMapWithKid 7 [1]) 7 = RunResult.ok (some [1], 7) := by
  exact ⟨rfl, rfl⟩

/-- C3 (counterexample): requesting the latest key (kid -1) from a KMS
that returns key id 5 succeeds, and the (config, token) pair is inserted
into the cache under the REQUESTED kid -1, not under the returned key id 5
carried by the config — refuting the claim that the insertion key is the
key id returned by the KMS. -/
theorem import_config_cache_key_counterexample :
    import_config envKid5 (-1) = RunResult.ok outKid5 ∧
    outKid5.inserted = some (-1, (outKid5.config, outKid5.token)) ∧
    outKid5.config.kid = 5 ∧
    ((5 : Nat) : Int) ≠ (-1 : Int) := by
  exact ⟨rfl, rfl, rfl, by decide⟩

/-- C3 (amended): after a successful KMS fetch (a success that performed
an insertion), `import_config` inserts the (KeyConfig, token) pair into
the cache under the REQUESTED kid — which coincides with the returned key
id whenever a non-negative kid was requested and the CBOR map carried one
— and the cache's time-to-live is 24 hours (86400 seconds). -/
theorem import_config_inserts_under_requested_kid (env : ImportEnv)
    (kid : Int) (out : ImportOutcome)
    (hok : import_config env kid = RunResult.ok out)
    (hins : out.inserted ≠ none) :
    out.inserted = some (kid, (out.config, out.token)) ∧
    cacheTimeToLiveSeconds = 86400 :=
  ⟨(import_config_ok_shape env kid out hok hins).1, rfl⟩

/-- Witness for the amended C3 theorem at the concrete environment
`envKid5` with requested kid -1. -/
theorem import_config_inserts_under_requested_kid_witness :
    outKid5.inserted = some (-1, (outKid5.config, outKid5.token)) ∧
    cacheTimeToLiveSeconds = 86400 :=
  import_config_inserts_under_requested_kid envKid5 (-1) outKid5 (by decide)
    (by decide)

/-- C4 (counterexample): the KeyConfig generated at startup in local-key
mode carries only two symmetric suites; the mandatory suite
(HKDF-SHA384, AES-256-GCM) is absent from its suite list. -/
theorem local_key_config_missing_mandatory_suite :
    ¬ ((⟨Kdf.HkdfSha384, Aead.Aes256Gcm⟩ : SymmetricSuite) ∈
        localKeyConfig.suites) := by decide

/-- C4 (amended): every KeyConfig constructed on the remote-KMS path of
`import_config` carries the full three-suite default list — containing
(HKDF-SHA384, AES-256-GCM), (HKDF-SHA256, AES-128-GCM) and (HKDF-SHA256,
ChaCha20-Poly1305) — while the local-key config generated at startup
carries only the latter two suites. -/
theorem key_config_suite_lists (env : ImportEnv) (kid : Int)
    (out : ImportOutcome) (hok : import_config env kid = RunResult.ok out)
    (hins : out.inserted ≠ none) :
    out.config.suites = defaultSuites ∧
    (⟨Kdf.HkdfSha384, Aead.Aes256Gcm⟩ : SymmetricSuite) ∈ defaultSuites ∧
    (⟨Kdf.HkdfSha256, Aead.Aes128Gcm⟩ : SymmetricSuite) ∈ defaultSuites ∧
    (⟨Kdf.HkdfSha256, Aead.ChaCha20Poly1305⟩ : SymmetricSuite) ∈ defaultSuites ∧
    localKeyConfig.suites = localKeySuites ∧
    (⟨Kdf.HkdfSha256, Aead.Aes128Gcm⟩ : SymmetricSuite) ∈ localKeyConfig.suites ∧
    (⟨Kdf.HkdfSha256, Aead.ChaCha20Poly1305⟩ : SymmetricSuite) ∈ localKeyConfig.suites :=
  ⟨(import_config_ok_shape env kid out hok hins).2, by decide, by decide,
    by decide, rfl, by decide, by decide⟩

/-- Witness for the amended C4 theorem at the concrete environment
`envKid5` with requested kid -1. -/
theorem key_config_suite_lists_witness :
    outKid5.config.suites = defaultSuites ∧
    (⟨Kdf.HkdfSha384, Aead.Aes256Gcm⟩ : SymmetricSuite) ∈ defaultSuites ∧
    (⟨Kdf.HkdfSha256, Aead.Aes128Gcm⟩ : SymmetricSuite) ∈ defaultSuites ∧
    (⟨Kdf.HkdfSha256, Aead.ChaCha20Poly1305⟩ : SymmetricSuite) ∈ defaultSuites ∧
    localKeyConfig.suites = localKeySuites ∧
    (⟨Kdf.HkdfSha256, Aead.Aes128Gcm⟩ : SymmetricSuite) ∈ localKeyConfig.suites ∧
    (⟨Kdf.HkdfSha256, Aead.ChaCha20Poly1305⟩ : SymmetricSuite) ∈ localKeyConfig.suites :=
  key_config_suite_lists envKid5 (-1) outKid5 (by decide) (by decide)

/-- C1: for every non-negative requested kid and every KMS response whose
kid field is a different value kN (a u8, hence at most 255), import_config
fails with the key-id-mismatch error and returns no KeyConfig — both when
the mismatch sits in the JSON envelope's kid field (with arbitrary key
content) and when the JSON envelope matches but the CBOR map's label-4
field carries the differing value (with arbitrary further map entries). -/
theorem import_config_kid_mismatch (kidN kN : Nat) (token receipt : String)
    (anyKey : KeyString) (restEntries : List (CborValue × CborValue))
    (hk : kN ≤ 255) (hne : kN ≠ kidN) :
    import_config (envSingle token ⟨200, some ⟨kN, anyKey, receipt⟩⟩)
        ((kidN : Nat) : Int) = RunResult.err SkrError.kidMismatchJson ∧
    import_config (envSingle token ⟨200, some ⟨kidN,
        KeyString.value (CborValue.map
          ((CborValue.int 4, CborValue.int ((kN : Nat) : Int)) :: restEntries)),
        receipt⟩⟩) ((kidN : Nat) : Int)
      = RunResult.err SkrError.kidMismatchCbor := by
  have h0 : (0 : Int) ≤ ((kidN : Nat) : Int) := Int.natCast_nonneg kidN
  have hne' : ((kN : Nat) : Int) ≠ ((kidN : Nat) : Int) := by
    exact_mod_cast hne
  have hk' : ((kN : Nat) : Int) ≤ 255 := by exact_mod_cast hk
  have hk0 : (0 : Int) ≤ ((kN : Nat) : Int) := Int.natCast_nonneg kN
  constructor
  · simp [import_config, envSingle, cacheGet, runSkrLoop, ge_iff_le, h0, hne']
  · simp [import_config, envSingle, cacheGet, runSkrLoop, parse_cbor_key,
      parseEntries, processEntry, ge_iff_le, h0, hne', hk', hk0,
      Int.toNat_natCast]

/-- Witness for C1 at requested kid 3 and response kid 7. -/
theorem import_config_kid_mismatch_witness :
    import_config (envSingle "t" ⟨200, some ⟨7, KeyString.empty, "r"⟩⟩)
        (((3 : Nat)) : Int) = RunResult.err SkrError.kidMismatchJson ∧
    import_config (envSingle "t" ⟨200, some ⟨3,
        KeyString.value (CborValue.map
          [(CborValue.int 4, CborValue.int (((7 : Nat)) : Int))]),
        "r"⟩⟩) (((3 : Nat)) : Int)
      = RunResult.err SkrError.kidMismatchCbor :=
  import_config_kid_mismatch 3 7 "t" "r" KeyString.empty [] (by decide)
    (by decide)

/-- C7 (counterexample): when the KMS answers with status 404,
import_config does fail and caches nothing, but the error it fails with is
the CBOR-decode failure of parsing the empty key string the loop broke out
with — not a dedicated KMS-rejection error: no code path of main.rs
produces one. -/
theorem import_config_status_404_error_kind :
    import_config env404 7 = RunResult.err SkrError.cborError ∧
    import_config env404 7 ≠ RunResult.err SkrError.kmsRejected := by decide

/-- C7 (amended): for every KMS response whose status is neither 200 nor
202, import_config fails — the loop breaks with an empty key string whose
CBOR decoding then fails — returning no KeyConfig and inserting nothing
into the cache; the subsequent responses are never consulted. -/
theorem import_config_non_200_202 (token : String) (kid : Int)
    (r : KmsResponse) (rest : List KmsResponse)
    (h200 : r.status ≠ 200) (h202 : r.status ≠ 202) :
    import_config ⟨[], some token, r :: rest⟩ kid
      = RunResult.err SkrError.cborError := by
  simp [import_config, cacheGet, runSkrLoop, h200, h202, parse_cbor_key]

/-- Witness for the amended C7 theorem at status 404. -/
theorem import_config_non_200_202_witness :
    import_config ⟨[], some "tok", [⟨404, none⟩]⟩ 7
      = RunResult.err SkrError.cborError :=
  import_config_non_200_202 "tok" 7 ⟨404, none⟩ [] (by decide) (by decide)

/-- C8: the SKR retry budget is 3.  Four consecutive 202 responses exhaust
it: exactly 4 KMS requests are sent with three 1-second sleeps between
them, any further responses are never consulted, and import_config fails
with the retries-exhausted error (the specification's KmsUnavailable).
When the third response is a well-formed 200 for the requested kid, the
loop stops after 3 requests (two 1-second sleeps) and the import succeeds
on that single client request. -/
theorem import_config_retry_budget (token receipt : String) (kidN : Nat)
    (d : List Nat) (rest : List KmsResponse) (hk : kidN ≤ 255) :
    runSkrLoop ((kidN : Nat) : Int) 3 0
        (resp202 :: resp202 :: resp202 :: resp202 :: rest)
      = (⟨4, [1, 1, 1]⟩, LoopOut.failed SkrError.maxRetriesReached) ∧
    import_config ⟨[], some token,
        resp202 :: resp202 :: resp202 :: resp202 :: rest⟩ ((kidN : Nat) : Int)
      = RunResult.err SkrError.maxRetriesReached ∧
    runSkrLoop ((kidN : Nat) : Int) 3 0
        [resp202, resp202,
          ⟨200, some ⟨kidN, keyMapWithKid ((kidN : Nat) : Int) d, receipt⟩⟩]
      = (⟨3, [1, 1]⟩, LoopOut.gotKey (keyMapWithKid ((kidN : Nat) : Int) d)) ∧
    import_config ⟨[], some token,
        [resp202, resp202,
          ⟨200, some ⟨kidN, keyMapWithKid ((kidN : Nat) : Int) d, receipt⟩⟩]⟩
        ((kidN : Nat) : Int)
      = RunResult.ok ⟨⟨kidN, Kem.P384Sha384, some d, defaultSuites⟩, token,
          some (((kidN : Nat) : Int),
            (⟨kidN, Kem.P384Sha384, some d, defaultSuites⟩, token))⟩ := by
  have h0 : (0 : Int) ≤ ((kidN : Nat) : Int) := Int.natCast_nonneg kidN
  have hk' : ((kidN : Nat) : Int) ≤ 255 := by exact_mod_cast hk
  refine ⟨?_, ?_, ?_, ?_⟩
  · simp [runSkrLoop, resp202]
  · simp [import_config, cacheGet, runSkrLoop, resp202]
  · simp [runSkrLoop, resp202, ge_iff_le, h0]
  · simp [import_config, cacheGet, runSkrLoop, resp202, parse_cbor_key,
      keyMapWithKid, parseEntries, processEntry, ge_iff_le, h0, hk',
      Int.toNat_natCast, KeyConfig.import_p384]

/-- Witness for C8 at requested kid 3 with scalar bytes [1]. -/
theorem import_config_retry_budget_witness :
    runSkrLoop (((3 : Nat)) : Int) 3 0
        (resp202 :: resp202 :: resp202 :: resp202 :: [])
      = (⟨4, [1, 1, 1]⟩, LoopOut.failed SkrError.maxRetriesReached) ∧
    import_config ⟨[], some "t",
        resp202 :: resp202 :: resp202 :: resp202 :: []⟩ (((3 : Nat)) : Int)
      = RunResult.err SkrError.maxRetriesReached ∧
    runSkrLoop (((3 : Nat)) : Int) 3 0
        [resp202, resp202,
          ⟨200, some ⟨3, keyMapWithKid (((3 : Nat)) : Int) [1], "r"⟩⟩]
      = (⟨3, [1, 1]⟩, LoopOut.gotKey (keyMapWithKid (((3 : Nat)) : Int) [1])) ∧
    import_config ⟨[], some "t",
        [resp202, resp202,
          ⟨200, some ⟨3, keyMapWithKid (((3 : Nat)) : Int) [1], "r"⟩⟩]⟩
        (((3 : Nat)) : Int)
      = RunResult.ok ⟨⟨3, Kem.P384Sha384, some [1], defaultSuites⟩, "t",
          some ((((3 : Nat)) : Int),
            (⟨3, Kem.P384Sha384, some [1], defaultSuites⟩, "t"))⟩ :=
  import_config_retry_budget "t" "r" 3 [1] [] (by decide)

/-- C9: status dispatch of the `/score` handler.  When no usable key
configuration is obtained — local-key mode with a non-zero kid, an
import_config failure, or an OhttpServer construction failure — the
response is 500 with the fixed body.  With a configuration, an ohttp
protocol error from reply generation yields 422 with the error identifier
in the body, any other reply error yields 400 with body "Request error",
and success yields the builder-default status 200 with Content-Type
message/ohttp-chunked-res and the encapsulated stream. -/
theorem score_status_dispatch (localKey ohttpNewOk : Bool) (env : ImportEnv)
    (reply : GenReply) (body : List Nat) :
    (localKey = true → kidOfBody body ≠ 0 →
      score localKey env ohttpNewOk reply body
        = RunResult.ok ⟨500, none, ScoreBody.configError⟩) ∧
    (∀ e, import_config env (kidOfBody body) = RunResult.err e →
      score localKey env ohttpNewOk reply body
        = RunResult.ok ⟨500, none, ScoreBody.configError⟩) ∧
    (∀ out, import_config env (kidOfBody body) = RunResult.ok out →
      ohttpNewOk = false →
      score localKey env ohttpNewOk reply body
        = RunResult.ok ⟨500, none, ScoreBody.configError⟩) ∧
    (∀ out, import_config env (kidOfBody body) = RunResult.ok out →
      ¬ (localKey = true ∧ kidOfBody body ≠ 0) → ohttpNewOk = true →
      ((reply = GenReply.ok →
        score localKey env ohttpNewOk reply body
          = RunResult.ok ⟨200, some "message/ohttp-chunked-res",
              ScoreBody.encapsulatedStream⟩) ∧
       (∀ s, reply = GenReply.ohttpError s →
        score localKey env ohttpNewOk reply body
          = RunResult.ok ⟨422, none, ScoreBody.ohttpErrorText ("Error: " ++ s)⟩) ∧
       (reply = GenReply.otherError →
        score localKey env ohttpNewOk reply body
          = RunResult.ok ⟨400, none, ScoreBody.requestError⟩))) := by
  refine ⟨?_, ?_, ?_, ?_⟩
  · intro hl hkid
    simp [score, hl, hkid]
  · intro e he
    by_cases hlk : localKey = true ∧ kidOfBody body ≠ 0
    · simp [score, hlk]
    · simp [score, hlk, he]
  · intro out hok hno
    by_cases hlk : localKey = true ∧ kidOfBody body ≠ 0
    · simp [score, hlk]
    · simp [score, hlk, hok, hno]
  · intro out hok hlk hyes
    refine ⟨?_, ?_, ?_⟩
    · intro hr
      simp [score, hlk, hok, hyes, hr]
    · intro s hr
      simp [score, hlk, hok, hyes, hr]
    · intro hr
      simp [score, hlk, hok, hyes, hr]

/-- The outcome `import_config envGood (-1)` evaluates to. -/
def outGood : ImportOutcome :=
  ⟨⟨0, Kem.P384Sha384, some [1], defaultSuites⟩, "t",
    some (-1, (⟨0, Kem.P384Sha384, some [1], defaultSuites⟩, "t"))⟩

/-- Witness for C9 exercising all four dispatch branches at concrete
inputs: local-key bypass, import failure, ohttp-server failure, and the
200/422/400 reply outcomes. -/
theorem score_status_dispatch_witness :
    score true env404 true GenReply.ok [3]
      = RunResult.ok ⟨500, none, ScoreBody.configError⟩ ∧
    score false env404 true GenReply.ok [3]
      = RunResult.ok ⟨500, none, ScoreBody.configError⟩ ∧
    score false envGood false GenReply.ok []
      = RunResult.ok ⟨500, none, ScoreBody.configError⟩ ∧
    score false envGood true GenReply.ok []
      = RunResult.ok ⟨200, some "message/ohttp-chunked-res",
          ScoreBody.encapsulatedStream⟩ ∧
    score false envGood true (GenReply.ohttpError "X") []
      = RunResult.ok ⟨422, none, ScoreBody.ohttpErrorText ("Error: " ++ "X")⟩ ∧
    score false envGood true GenReply.otherError []
      = RunResult.ok ⟨400, none, ScoreBody.requestError⟩ :=
  ⟨(score_status_dispatch true true env404 GenReply.ok [3]).1 rfl (by decide),
   (score_status_dispatch false true env404 GenReply.ok [3]).2.1
     SkrError.cborError (by decide),
   (score_status_dispatch false false envGood GenReply.ok []).2.2.1
     outGood (by decide) rfl,
   ((score_status_dispatch false true envGood GenReply.ok []).2.2.2
     outGood (by decide) (by simp) rfl).1 rfl,
   ((score_status_dispatch false true envGood (GenReply.ohttpError "X") []).2.2.2
     outGood (by decide) (by simp) rfl).2.1 "X" rfl,
   ((score_status_dispatch false true envGood GenReply.otherError []).2.2.2
     outGood (by decide) (by simp) rfl).2.2 rfl⟩

/-- C10: when the CBOR key map has no label-4 entry (but carries the key
type and private scalar), parse_cbor_key succeeds with the returned kid
left at its initialisation value 0, with no mismatch check executed; for a
KMS response whose JSON envelope kid matches the (non-negative) requested
kid but whose CBOR map lacks label 4, import_config then succeeds,
constructs the KeyConfig with key id 0, and caches the pair under the
originally requested kid. -/
theorem import_config_missing_kid_field (kidN : Nat) (d : List Nat)
    (token receipt : String) :
    parse_cbor_key (keyMapNoKid d) ((kidN : Nat) : Int)
      = RunResult.ok (some d, 0) ∧
    import_config ⟨[], some token,
        [⟨200, some ⟨kidN, keyMapNoKid d, receipt⟩⟩]⟩ ((kidN : Nat) : Int)
      = RunResult.ok ⟨⟨0, Kem.P384Sha384, some d, defaultSuites⟩, token,
          some (((kidN : Nat) : Int),
            (⟨0, Kem.P384Sha384, some d, defaultSuites⟩, token))⟩ := by
  constructor
  · simp [parse_cbor_key, keyMapNoKid, parseEntries, processEntry]
  · simp [import_config, cacheGet, runSkrLoop, parse_cbor_key, keyMapNoKid,
      parseEntries, processEntry, KeyConfig.import_p384]

/-- Witness for C10 at requested kid 3 and scalar bytes [2]. -/
theorem import_config_missing_kid_field_witness :
    parse_cbor_key (keyMapNoKid [2]) (((3 : Nat)) : Int)
      = RunResult.ok (some [2], 0) ∧
    import_config ⟨[], some "t", [⟨200, some ⟨3, keyMapNoKid [2], "r"⟩⟩]⟩
        (((3 : Nat)) : Int)
      = RunResult.ok ⟨⟨0, Kem.P384Sha384, some [2], defaultSuites⟩, "t",
          some ((((3 : Nat)) : Int),
            (⟨0, Kem.P384Sha384, some [2], defaultSuites⟩, "t"))⟩ :=
  import_config_missing_kid_field 3 [2] "t" "r"

end OhttpGateway
